import Mathlib

/-!
Verification development for the payment-completion relay server
(`src/server.js`, MailerSend variant, plus the Sender.net variant in
`src/unnamed/part_000`).  The definitions below are a shallow embedding of
the orchestrator (`handleSuccessfulPayment`, `POST /api/process-order`,
`POST /api/webhook/paystack`), the idempotency ledger
(`processedReferences`), the HTML-escape helper (`esc`), the amount
conversion (`Math.round(Number(amount) || 0) / 100`), and the display-name
split heuristics.  JavaScript numbers are modelled as rationals, strings as
`String` or `List Char`, JS `undefined` as `Option.none`, and external
network calls (Telegram, MailerSend, Paystack) as oracle parameters that say
whether each call would succeed.
-/

namespace Canvacrash

/-- JavaScript truthiness of a possibly-undefined string value: `undefined`
and the empty string are falsy, every other string is truthy. -/
def truthy : Option String → Bool
  | none => false
  | some s => !(s == "")

/-- A reference value as passed to `handleSuccessfulPayment`: either a
string or JS `undefined` (the webhook path can pass `undefined` when the
event payload lacks `data.reference`). -/
abbrev Ref := Option String

/-- Oracle for the two fan-out collaborator calls of the MailerSend variant
of `handleSuccessfulPayment` (src/server.js lines 375-434): whether the
Telegram `sendMessage` call and the MailerSend email call would succeed if
attempted. -/
structure Outcomes where
  telegramOk : Bool
  emailOk : Bool
deriving DecidableEq

/-- Observable fan-out side effects of one orchestrator call: how many
times the chat-alert (Telegram) collaborator and the email collaborator
were actually invoked. -/
structure Effects where
  telegramCalls : Nat
  emailCalls : Nat
deriving DecidableEq

/-- Result value of `handleSuccessfulPayment`: either it returned normally
(`ok alreadyProcessed emailSent`, where `emailSent` is `none` when the JS
object omits the field, as in the already-processed branch) or it threw
(`err`), which the callers catch. -/
inductive HandleOutcome where
  | ok (alreadyProcessed : Bool) (emailSent : Option Bool)
  | err
deriving DecidableEq

/-- Full observable result of one `handleSuccessfulPayment` call: the
idempotency ledger afterwards, the returned/thrown outcome, and the fan-out
side effects performed. -/
structure HandleResult where
  state : List Ref
  outcome : HandleOutcome
  effects : Effects
deriving DecidableEq

/-- Shallow embedding of `handleSuccessfulPayment` (src/server.js lines
355-435).  Control flow from the source: if the reference is already in
`processedReferences`, return `{alreadyProcessed: true}` with no side
effects; otherwise attempt the Telegram call, then (only if it succeeded)
the email call, then (only if both succeeded) add the reference to the
ledger and return `{alreadyProcessed: false, emailSent: true}`.  A failing
collaborator call throws out of the function before the commit.  The other
fields of the input object (email, fullName, amount, ...) only shape the
message payloads, modelled separately by `buildTelegramMessage`. -/
def handleSuccessfulPayment (st : List Ref) (reference : Ref) (oc : Outcomes) :
    HandleResult :=
  if reference ∈ st then
    ⟨st, .ok true none, ⟨0, 0⟩⟩
  else if oc.telegramOk = false then
    ⟨st, .err, ⟨1, 0⟩⟩
  else if oc.emailOk = false then
    ⟨st, .err, ⟨1, 1⟩⟩
  else
    ⟨reference :: st, .ok false (some true), ⟨1, 1⟩⟩

/-- Request body of `POST /api/process-order` (src/server.js line 440):
each destructured field is a string or `undefined`. -/
structure OrderReq where
  email : Option String
  fullName : Option String
  reference : Ref
  gclid : Option String
  ipAddress : Option String
  country : Option String
deriving DecidableEq

/-- The `data` object of a Paystack verification response as read by
`process-order` (src/server.js lines 451-458): its `status` field, the
numeric `amount` in minor units, and the `currency`. -/
structure VerifyData where
  status : Option String
  amount : Option ℚ
  currency : Option String

/-- Outcome of the `axios.get` verification call in `process-order`:
either the request itself threw (`netError`, caught as a 500) or a
response arrived, carrying the truthiness of `verify.data.status` and the
optional `verify.data.data` object. -/
inductive VerifyOutcome where
  | netError
  | response (status : Bool) (data : Option VerifyData)

/-- Truthiness of `data?.status === 'success'` for the optional `data`
object of the verification response. -/
def statusIsSuccess : Option VerifyData → Bool
  | some d => d.status == some "success"
  | none => false

/-- HTTP response sent by `POST /api/process-order`: status code, the
`success` flag, the `message` string, and the `emailSent` flag of the
200-response body (`false` for the error responses, which omit it). -/
structure ProcResponse where
  httpStatus : Nat
  success : Bool
  message : String
  emailSent : Bool
deriving DecidableEq

/-- Observable result of one `POST /api/process-order` request: the HTTP
response, the idempotency ledger afterwards, and the fan-out side effects
performed. -/
structure ProcOut where
  response : ProcResponse
  state : List Ref
  effects : Effects
deriving DecidableEq

/-- Shallow embedding of the `POST /api/process-order` handler
(src/server.js lines 438-484).  From the source: reject with 400 when
`email`, `fullName` or `reference` is falsy; catch a thrown verification
request as a 500; reject with 400 when
`!(verify.data?.status && data?.status === 'success')`; otherwise run
`handleSuccessfulPayment` and map its result — a throw is caught as a 500
`Server error`, a normal return becomes a 200 body whose message is
`Already processed`/`Processed` and whose `emailSent` is
`result.emailSent || false`. -/
def processOrder (st : List Ref) (req : OrderReq) (v : VerifyOutcome)
    (oc : Outcomes) : ProcOut :=
  if !(truthy req.email && truthy req.fullName && truthy req.reference) then
    ⟨⟨400, false, "Missing email, fullName or reference", false⟩, st, ⟨0, 0⟩⟩
  else
    match v with
    | .netError => ⟨⟨500, false, "Server error", false⟩, st, ⟨0, 0⟩⟩
    | .response status data =>
      if !(status && statusIsSuccess data) then
        ⟨⟨400, false, "Verification failed", false⟩, st, ⟨0, 0⟩⟩
      else
        let h := handleSuccessfulPayment st req.reference oc
        match h.outcome with
        | .err => ⟨⟨500, false, "Server error", false⟩, h.state, h.effects⟩
        | .ok ap es =>
          ⟨⟨200, true, if ap then "Already processed" else "Processed",
            es.getD false⟩, h.state, h.effects⟩

/-- JavaScript `Math.round`: round to the nearest integer, halves toward
positive infinity, i.e. `⌊x + 1/2⌋`. -/
def jsRound (q : ℚ) : ℤ := ⌊q + 1 / 2⌋

/-- Amount normalization of the verifier paths (src/server.js lines 457 and
509): `Math.round(Number(data.amount) || 0) / 100` — round the minor-unit
amount first, then divide by 100. -/
def koboToNaira (amount : ℚ) : ℚ := (jsRound amount : ℚ) / 100

/-- Minor-unit amount sent at payment initialization (src/server.js line
216): `amount * 100`. -/
def paymentInitMinorAmount (amount : ℚ) : ℚ := amount * 100

/-- JavaScript `||` on a string with a default: the empty string is
replaced by the default. -/
def jsOrStr (s d : List Char) : List Char := if s = [] then d else s

/-- JavaScript `String.prototype.split` with a single-character separator:
splitting the empty string yields `[""]`, and consecutive separators yield
empty fields. -/
def splitOnChar (sep : Char) : List Char → List (List Char)
  | [] => [[]]
  | a :: rest =>
    let r := splitOnChar sep rest
    if a = sep then [] :: r
    else
      match r with
      | h :: t => (a :: h) :: t
      | [] => [[a]]

/-- JavaScript `String.prototype.trim`: drop whitespace from both ends. -/
def jsTrim (s : List Char) : List Char :=
  ((s.dropWhile Char.isWhitespace).reverse.dropWhile Char.isWhitespace).reverse

/-- Join a list of strings with a single-character separator, like
JavaScript `Array.prototype.join`. -/
def joinWith (sep : Char) : List (List Char) → List Char
  | [] => []
  | [l] => l
  | l :: m :: ls => l ++ sep :: joinWith sep (m :: ls)

/-- Display-name split of the FetchApp fulfillment path (src/server.js
lines 916-919, identically lines 812-814):
`nameParts = (fullName || '').trim().split(' ')`,
`firstName = nameParts[0] || 'Customer'`,
`lastName = nameParts.slice(1).join(' ') || 'Customer'`. -/
def fetchSplitName (fullName : Option (List Char)) : List Char × List Char :=
  let nameParts := splitOnChar ' ' (jsTrim (fullName.getD []))
  (jsOrStr (nameParts.headD []) "Customer".toList,
   jsOrStr (joinWith ' ' (nameParts.drop 1)) "Customer".toList)

/-- Display-name split of the Sender.net list-subscription path
(src/unnamed/part_000 lines 326-327):
`[first_name, ...rest] = String(fullName || '').trim().split(' ')`,
`last_name = rest.join(' ') || ''`. -/
def senderSplitName (fullName : Option (List Char)) : List Char × List Char :=
  let parts := splitOnChar ' ' (jsTrim (fullName.getD []))
  (parts.headD [], jsOrStr (joinWith ' ' (parts.drop 1)) [])

/-- Global replacement of one character by a string, modelling
`String.prototype.replace` with a single-character global regex. -/
def replaceChar (c : Char) (r : List Char) : List Char → List Char
  | [] => []
  | a :: rest => (if a = c then r else [a]) ++ replaceChar c r rest

/-- The HTML-escape helper `esc` (src/server.js lines 31-34):
`String(s).replace(/&/g,'&amp;').replace(/</g,'&lt;').replace(/>/g,'&gt;')`. -/
def esc (s : List Char) : List Char :=
  replaceChar '>' "&gt;".toList
    (replaceChar '<' "&lt;".toList
      (replaceChar '&' "&amp;".toList s))

/-- Per-character view of `esc`, used in proofs: `&` becomes `&amp;`,
`<` becomes `&lt;`, `>` becomes `&gt;`, everything else is unchanged. -/
def escChar (a : Char) : List Char :=
  if a = '&' then "&amp;".toList
  else if a = '<' then "&lt;".toList
  else if a = '>' then "&gt;".toList
  else [a]

/-- Whether the pattern (first argument) occurs verbatim at the head of the
input (second argument). -/
def leadsWith : List Char → List Char → Bool
  | [], _ => true
  | _ :: _, [] => false
  | p :: ps, a :: as => a = p && leadsWith ps as

/-- Every occurrence of `&` in the string begins one of the entities
`&amp;`, `&lt;`, `&gt;` — i.e. there is no stray raw ampersand. -/
def ampOkB : List Char → Bool
  | [] => true
  | a :: rest =>
    (if a = '&' then
      leadsWith "amp;".toList rest || leadsWith "lt;".toList rest ||
        leadsWith "gt;".toList rest
     else true) && ampOkB rest

/-- Telegram chat-alert message built by `handleSuccessfulPayment`
(src/server.js lines 378-401): the fixed HTML template with each
customer-supplied value interpolated through `esc`.  `amountText` stands
for the interpolation `String(amountNaira)`, and `now` for
`new Date().toISOString()`. -/
def buildTelegramMessage (fullName email currency amountText reference
    country ipAddress gclid now : List Char) : List Char :=
  joinWith '\n'
    [ "🎉 <b>NEW CONVERSION</b> 🎉".toList
    , []
    , "<b>Customer Details:</b>".toList
    , "Full Name: ".toList ++ esc fullName
    , "Email: ".toList ++ esc email
    , []
    , "<b>Transaction Details:</b>".toList
    , "Amount: ".toList ++ esc (currency ++ ' ' :: amountText)
    , "Reference: ".toList ++ esc reference
    , "Country: ".toList ++ esc country
    , "IP Address: ".toList ++ esc ipAddress
    , []
    , "<b>Google Ads Data:</b>".toList
    , "GCLID: ".toList ++ esc gclid
    , "Conversion Time: ".toList ++ esc now
    , []
    , "<b>For Google Ads Upload:</b>".toList
    , "<pre>GCLID: ".toList ++ esc gclid ++
        "\nConversion Name: Purchase\nConversion Time: ".toList ++ esc now ++
        "\nConversion Value: ".toList ++ esc amountText ++
        "\nConversion Currency: ".toList ++ esc currency ++
        "</pre>".toList ]

/-- The left curly-brace character, written via its code point. -/
def lcurly : Char := Char.ofNat 123

/-- The right curly-brace character, written via its code point. -/
def rcurly : Char := Char.ofNat 125

mutual
/-- JSON values as produced by the body parser (`express.json()`), over the
grammar subset the webhook needs: strings without escape sequences,
integer numerals, booleans, null, arrays and objects. -/
inductive Json where
  | str (s : List Char) : Json
  | num (n : Int) : Json
  | jbool (b : Bool) : Json
  | null : Json
  | arr (items : JList) : Json
  | obj (members : JMembers) : Json

/-- A list of JSON array items. -/
inductive JList where
  | nil : JList
  | cons (v : Json) (rest : JList) : JList

/-- A list of JSON object members (key/value pairs). -/
inductive JMembers where
  | nil : JMembers
  | cons (k : List Char) (v : Json) (rest : JMembers) : JMembers
end

mutual
/-- JavaScript `JSON.stringify` on the modelled values: canonical
serialization with no whitespace, keys in stored order. -/
def jsonStringify : Json → List Char
  | .str s => '"' :: (s ++ ['"'])
  | .num n => (toString n).toList
  | .jbool true => "true".toList
  | .jbool false => "false".toList
  | .null => "null".toList
  | .arr items => '[' :: (stringifyItems items ++ [']'])
  | .obj ms => lcurly :: (stringifyMembers ms ++ [rcurly])

/-- Serialize array items, comma-separated. -/
def stringifyItems : JList → List Char
  | .nil => []
  | .cons v .nil => jsonStringify v
  | .cons v rest => jsonStringify v ++ ',' :: stringifyItems rest

/-- Serialize object members, comma-separated. -/
def stringifyMembers : JMembers → List Char
  | .nil => []
  | .cons k v .nil => '"' :: (k ++ '"' :: ':' :: jsonStringify v)
  | .cons k v rest =>
    '"' :: (k ++ '"' :: ':' :: jsonStringify v) ++ ',' :: stringifyMembers rest
end

/-- Drop leading JSON whitespace. -/
def skipWs : List Char → List Char
  | [] => []
  | c :: rest =>
    if c = ' ' ∨ c = '\n' ∨ c = '\t' ∨ c = '\r' then skipWs rest else c :: rest

/-- Read the content of a JSON string up to the closing quote (the opening
quote is already consumed); returns the content and the remaining input. -/
def takeStr : List Char → Option (List Char × List Char)
  | [] => none
  | c :: rest =>
    if c = '"' then some ([], rest)
    else
      match takeStr rest with
      | some (s, r) => some (c :: s, r)
      | none => none

/-- Read a nonempty run of decimal digits as a natural number; returns the
value and the remaining input. -/
def takeNat (acc : Nat) : List Char → Nat × List Char
  | [] => (acc, [])
  | c :: rest =>
    if c.isDigit then takeNat (acc * 10 + (c.toNat - 48)) rest
    else (acc, c :: rest)

/-- Check that the input begins with the expected literal tail and return
the remaining input. -/
def expectLit : List Char → List Char → Option (List Char)
  | [], input => some input
  | _ :: _, [] => none
  | e :: es, a :: rest => if a = e then expectLit es rest else none

mutual
/-- Fuel-indexed recursive-descent parser for the modelled JSON subset,
standing for the body parsing done by `express.json()` (`JSON.parse`).
Accepts arbitrary interleaved whitespace, which `jsonStringify` does not
re-emit. -/
def parseValue : Nat → List Char → Option (Json × List Char)
  | 0, _ => none
  | fuel + 1, input =>
    match skipWs input with
    | [] => none
    | c :: rest =>
      if c = '"' then
        match takeStr rest with
        | some (s, r) => some (.str s, r)
        | none => none
      else if c = lcurly then
        match skipWs rest with
        | c2 :: r2 =>
          if c2 = rcurly then some (.obj .nil, r2)
          else (parseMembers fuel rest).map (fun (ms, r3) => (.obj ms, r3))
        | [] => none
      else if c = '[' then
        match skipWs rest with
        | c2 :: r2 =>
          if c2 = ']' then some (.arr .nil, r2)
          else (parseItems fuel rest).map (fun (items, r3) => (.arr items, r3))
        | [] => none
      else if c = 't' then
        (expectLit "rue".toList rest).map (fun r => (.jbool true, r))
      else if c = 'f' then
        (expectLit "alse".toList rest).map (fun r => (.jbool false, r))
      else if c = 'n' then
        (expectLit "ull".toList rest).map (fun r => (.null, r))
      else if c = '-' then
        match rest with
        | d :: _ =>
          if d.isDigit then
            let (n, r) := takeNat 0 rest
            some (.num (-(n : Int)), r)
          else none
        | [] => none
      else if c.isDigit then
        let (n, r) := takeNat 0 (c :: rest)
        some (.num (n : Int), r)
      else none

/-- Parse one or more `"key": value` members followed by the closing
brace; the input starts just after the opening brace. -/
def parseMembers : Nat → List Char → Option (JMembers × List Char)
  | 0, _ => none
  | fuel + 1, input =>
    match skipWs input with
    | c :: rest =>
      if c = '"' then
        match takeStr rest with
        | some (k, r) =>
          match skipWs r with
          | c2 :: r2 =>
            if c2 = ':' then
              match parseValue fuel r2 with
              | some (v, r3) =>
                match skipWs r3 with
                | c3 :: r4 =>
                  if c3 = ',' then
                    match parseMembers fuel r4 with
                    | some (ms, r5) => some (.cons k v ms, r5)
                    | none => none
                  else if c3 = rcurly then some (.cons k v .nil, r4)
                  else none
                | [] => none
              | none => none
            else none
          | [] => none
        | none => none
      else none
    | [] => none

/-- Parse one or more array items followed by the closing bracket; the
input starts just after the opening bracket. -/
def parseItems : Nat → List Char → Option (JList × List Char)
  | 0, _ => none
  | fuel + 1, input =>
    match parseValue fuel input with
    | some (v, r) =>
      match skipWs r with
      | c :: rest =>
        if c = ',' then
          match parseItems fuel rest with
          | some (items, r2) => some (.cons v items, r2)
          | none => none
        else if c = ']' then some (.cons v .nil, rest)
        else none
      | [] => none
    | none => none
end

/-- Parse a full JSON document from the received bytes, requiring the whole
input (up to trailing whitespace) to be consumed, as `JSON.parse` does. -/
def parseJson (raw : List Char) : Option Json :=
  match parseValue (raw.length + 1) raw with
  | some (v, rest) => if skipWs rest = [] then some v else none
  | none => none

/-- Look up a field of a JSON object member list by key. -/
def findMember (k : List Char) : JMembers → Option Json
  | .nil => none
  | .cons k' v rest => if k' = k then some v else findMember k rest

/-- JavaScript property access `body?.field` on a parsed JSON value:
`undefined` (here `none`) unless the value is an object with the field. -/
def jsonField (j : Json) (k : List Char) : Option Json :=
  match j with
  | .obj ms => findMember k ms
  | _ => none

/-- The webhook's event dispatch test `event?.event === 'charge.success'`
(src/server.js line 500): true exactly when the `event` field is the
string `"charge.success"`. -/
def isChargeSuccess (body : Json) : Bool :=
  match jsonField body "event".toList with
  | some (.str s) => s == "charge.success".toList
  | _ => false

/-- The webhook's reference extraction `event.data?.reference`
(src/server.js line 501), as the string value when present (the gateway
sends the reference as a string). -/
def refField (body : Json) : Option (List Char) :=
  match jsonField body "data".toList with
  | some d =>
    match jsonField d "reference".toList with
    | some (.str s) => some s
    | _ => none
  | none => none

/-- The byte string the webhook handler feeds to the HMAC
(src/server.js line 491): `JSON.stringify(req.body)`, the re-serialization
of the already-parsed body. -/
def webhookHmacInput (body : Json) : List Char := jsonStringify body

/-- Shallow embedding of the `POST /api/webhook/paystack` handler
(src/server.js lines 487-539).  `hmacF` stands for
`crypto.createHmac('sha512', PAYSTACK_SECRET_KEY).update(·).digest('hex')`.
From the source: compute the digest of `JSON.stringify(req.body)`; on
mismatch with the `x-paystack-signature` header respond 400 and do nothing
else; on match, if the event is `charge.success`, start
`handleSuccessfulPayment` fire-and-forget with `.catch` that only logs, and
respond 200 regardless of that call's outcome; respond 200 also for other
events.  Returns (status, ledger afterwards, fan-out effects). -/
def webhookPaystack (hmacF : List Char → List Char) (body : Json)
    (sig : List Char) (st : List Ref) (oc : Outcomes) :
    Nat × List Ref × Effects :=
  let hash := hmacF (webhookHmacInput body)
  if hash ≠ sig then (400, st, ⟨0, 0⟩)
  else if isChargeSuccess body then
    let r := handleSuccessfulPayment st ((refField body).map String.mk) oc
    (200, r.state, r.effects)
  else (200, st, ⟨0, 0⟩)

/-- A concrete received webhook body byte string containing ordinary JSON
whitespace (a space after the colon). -/
def rawExample : List Char := "\x7b\"event\": \"charge.success\"\x7d".toList

/-- The parse of `rawExample`. -/
def bodyExample : Json :=
  .obj (.cons "event".toList (.str "charge.success".toList) .nil)

/-! ### Claim C1: idempotent double call -/

/-- Claim C1 holds: calling `process-order` twice sequentially with the
same valid, verified input (and collaborator calls succeeding on the first
call) returns `alreadyProcessed = false` then `alreadyProcessed = true`
(`Processed` then `Already processed` in the response body), and the
Telegram and email collaborators are each invoked exactly once across the
two calls, whatever the environment would do on the second call. -/
theorem c1_double_call_idempotent (st : List Ref) (req : OrderReq)
    (a : Option ℚ) (c : Option String) (oc₂ : Outcomes)
    (he : truthy req.email = true) (hf : truthy req.fullName = true)
    (hr : truthy req.reference = true) (hn : req.reference ∉ st) :
    let v := VerifyOutcome.response true (some ⟨some "success", a, c⟩)
    let p₁ := processOrder st req v ⟨true, true⟩
    let p₂ := processOrder p₁.state req v oc₂
    (handleSuccessfulPayment st req.reference ⟨true, true⟩).outcome
        = .ok false (some true) ∧
    (handleSuccessfulPayment p₁.state req.reference oc₂).outcome
        = .ok true none ∧
    p₁.response = ⟨200, true, "Processed", true⟩ ∧
    p₂.response = ⟨200, true, "Already processed", false⟩ ∧
    p₁.effects.telegramCalls + p₂.effects.telegramCalls = 1 ∧
    p₁.effects.emailCalls + p₂.effects.emailCalls = 1 := by
  simp [processOrder, handleSuccessfulPayment, statusIsSuccess, he, hf, hr, hn]

/-- Witness for `c1_double_call_idempotent` at a concrete request. -/
theorem c1_double_call_idempotent_witness :
    let req : OrderReq := ⟨some "a@b.com", some "Jane Doe", some "txn_1",
      none, none, none⟩
    let v := VerifyOutcome.response true
      (some ⟨some "success", some 490000, some "NGN"⟩)
    let p₁ := processOrder [] req v ⟨true, true⟩
    let p₂ := processOrder p₁.state req v ⟨true, true⟩
    (handleSuccessfulPayment [] (some "txn_1") ⟨true, true⟩).outcome
        = .ok false (some true) ∧
    (handleSuccessfulPayment p₁.state (some "txn_1") ⟨true, true⟩).outcome
        = .ok true none ∧
    p₁.response = ⟨200, true, "Processed", true⟩ ∧
    p₂.response = ⟨200, true, "Already processed", false⟩ ∧
    p₁.effects.telegramCalls + p₂.effects.telegramCalls = 1 ∧
    p₁.effects.emailCalls + p₂.effects.emailCalls = 1 :=
  c1_double_call_idempotent []
    ⟨some "a@b.com", some "Jane Doe", some "txn_1", none, none, none⟩
    (some 490000) (some "NGN") ⟨true, true⟩ rfl rfl rfl (by decide)

/-! ### Claim C2: independent fan-out -/

/-- Claim C2 fails on the code: the collaborator calls in
`handleSuccessfulPayment` are sequential awaits inside one `try` block, so
when the Telegram (chat-alert) call fails, the email collaborator is never
invoked in that fan-out (here: Telegram invoked once and fails, email
invoked zero times). -/
theorem c2_counterexample :
    (handleSuccessfulPayment [] (some "txn_1") ⟨false, true⟩).effects.telegramCalls
        = 1 ∧
    (handleSuccessfulPayment [] (some "txn_1") ⟨false, true⟩).effects.emailCalls
        = 0 := by
  decide

/-- Claim C2 amended: fan-out is sequential and short-circuiting — for an
admitted reference the chat-alert collaborator is always invoked, but the
email collaborator is invoked exactly when the chat-alert call succeeded;
a chat-alert failure prevents the email collaborator from being invoked. -/
theorem c2_amended_short_circuit (st : List Ref) (r : Ref) (oc : Outcomes)
    (h : r ∉ st) :
    (handleSuccessfulPayment st r oc).effects.telegramCalls = 1 ∧
    (handleSuccessfulPayment st r oc).effects.emailCalls
        = (if oc.telegramOk then 1 else 0) := by
  rcases oc with ⟨tg, em⟩
  cases tg <;> cases em <;> simp [handleSuccessfulPayment, h]

/-- Witness for `c2_amended_short_circuit` with a failing chat-alert. -/
theorem c2_amended_short_circuit_witness :
    (handleSuccessfulPayment [] (some "txn_1") ⟨false, true⟩).effects.telegramCalls
        = 1 ∧
    (handleSuccessfulPayment [] (some "txn_1") ⟨false, true⟩).effects.emailCalls
        = (if (false : Bool) then 1 else 0) :=
  c2_amended_short_circuit [] (some "txn_1") ⟨false, true⟩ (by decide)

/-! ### Claim C3: commit after attempted fan-out -/

/-- Claim C3 fails on the code: here fan-out is fully attempted (both
collaborators invoked; the email call fails) yet the reference is not
recorded in the processed set — `processedReferences.add` runs only after
every collaborator call succeeded, not win-or-lose. -/
theorem c3_counterexample :
    (handleSuccessfulPayment [] (some "txn_1") ⟨true, false⟩).effects.telegramCalls
        = 1 ∧
    (handleSuccessfulPayment [] (some "txn_1") ⟨true, false⟩).effects.emailCalls
        = 1 ∧
    some "txn_1" ∉ (handleSuccessfulPayment [] (some "txn_1") ⟨true, false⟩).state := by
  decide

/-- Claim C3 amended: for an admitted reference the commit is conditional
on full success — the reference is recorded in the processed set exactly
when both collaborator calls succeeded; on any collaborator failure the
set is unchanged, so a subsequent call with the same reference is
re-admitted. -/
theorem c3_amended_commit_on_success (st : List Ref) (r : Ref) (oc : Outcomes)
    (h : r ∉ st) :
    (handleSuccessfulPayment st r oc).state
        = (if oc.telegramOk && oc.emailOk then r :: st else st) := by
  rcases oc with ⟨tg, em⟩
  cases tg <;> cases em <;> simp [handleSuccessfulPayment, h]

/-- Witness for `c3_amended_commit_on_success` with a failing email call. -/
theorem c3_amended_commit_on_success_witness :
    (handleSuccessfulPayment [] (some "txn_1") ⟨true, false⟩).state
        = (if true && false then some "txn_1" :: [] else []) :=
  c3_amended_commit_on_success [] (some "txn_1") ⟨true, false⟩ (by decide)

/-! ### Claim C4: collaborator failure and the overall result -/

/-- Claim C4 fails on the code: with a verified transaction and a failing
email collaborator, `handleSuccessfulPayment` throws, `process-order`
catches it, and the caller receives a 500 `Server error` response with
`success = false` — not the success result the claim states. -/
theorem c4_counterexample :
    (processOrder []
        ⟨some "a@b.com", some "Jane Doe", some "txn_1", none, none, none⟩
        (.response true (some ⟨some "success", none, none⟩))
        ⟨true, false⟩).response
      = ⟨500, false, "Server error", false⟩ := by
  decide

/-- Claim C4 amended: a fan-out collaborator failure fails the overall
orchestration — for a valid, verified, not-yet-processed request,
`process-order` answers 200 `Processed` with `success = true` exactly when
both collaborator calls succeed, and otherwise answers 500 `Server error`
with `success = false`. -/
theorem c4_amended_failure_propagates (st : List Ref) (req : OrderReq)
    (a : Option ℚ) (c : Option String) (oc : Outcomes)
    (he : truthy req.email = true) (hf : truthy req.fullName = true)
    (hr : truthy req.reference = true) (hn : req.reference ∉ st) :
    (processOrder st req
        (.response true (some ⟨some "success", a, c⟩)) oc).response
      = (if oc.telegramOk && oc.emailOk then ⟨200, true, "Processed", true⟩
         else ⟨500, false, "Server error", false⟩) := by
  rcases oc with ⟨tg, em⟩
  cases tg <;> cases em <;>
    simp [processOrder, handleSuccessfulPayment, statusIsSuccess, he, hf, hr, hn]

/-- Witness for `c4_amended_failure_propagates` with a failing email
collaborator. -/
theorem c4_amended_failure_propagates_witness :
    (processOrder []
        ⟨some "a@b.com", some "Jane Doe", some "txn_1", none, none, none⟩
        (.response true (some ⟨some "success", none, none⟩))
        ⟨true, false⟩).response
      = (if true && false then ⟨200, true, "Processed", true⟩
         else ⟨500, false, "Server error", false⟩) :=
  c4_amended_failure_propagates []
    ⟨some "a@b.com", some "Jane Doe", some "txn_1", none, none, none⟩
    none none ⟨true, false⟩ rfl rfl rfl (by decide)

/-! ### Claim C6: webhook signature input and rejection -/

/-- Claim C6 fails on the code: the webhook computes the HMAC over
`JSON.stringify(req.body)` — a re-serialization of the parsed body — not
over the exact bytes received.  Concretely, the received byte string
`rawExample` (which contains a space after the colon) parses to
`bodyExample`, but the bytes fed to the HMAC for that request differ from
the received bytes. -/
theorem c6_counterexample :
    parseJson rawExample = some bodyExample ∧
      webhookHmacInput bodyExample ≠ rawExample := by
  exact ⟨rfl, by decide⟩

/-- Claim C6 amended: the webhook computes the HMAC-SHA-512 over
`JSON.stringify` of the already-parsed body (which equals the received
bytes only when they are already in canonical serialized form), compares
it to the claimed signature header, and on mismatch rejects the request
with HTTP 400, leaving the processed set unchanged and invoking no
collaborator. -/
theorem c6_amended_mismatch_rejected (hmacF : List Char → List Char)
    (body : Json) (sig : List Char) (st : List Ref) (oc : Outcomes)
    (h : hmacF (webhookHmacInput body) ≠ sig) :
    webhookPaystack hmacF body sig st oc = (400, st, ⟨0, 0⟩) := by
  simp [webhookPaystack, h]

/-- Witness for `c6_amended_mismatch_rejected` at a concrete mismatch. -/
theorem c6_amended_mismatch_rejected_witness :
    webhookPaystack (fun _ => []) Json.null ['x'] [] ⟨true, true⟩
      = (400, [], ⟨0, 0⟩) :=
  c6_amended_mismatch_rejected (fun _ => []) Json.null ['x'] [] ⟨true, true⟩
    (by decide)

/-! ### Claim C8: webhook acknowledgement -/

/-- Claim C8 holds: once the signature check passes, the webhook responds
200 for every event payload and every fan-out outcome — the status does
not depend on whether the fire-and-forget collaborator calls succeed or
fail (their failure is only logged by the attached catch handler), so a
fan-out failure is never surfaced to the gateway. -/
theorem c8_webhook_always_200 (hmacF : List Char → List Char) (body : Json)
    (sig : List Char) (st : List Ref) (oc : Outcomes)
    (h : hmacF (webhookHmacInput body) = sig) :
    (webhookPaystack hmacF body sig st oc).1 = 200 := by
  unfold webhookPaystack
  rw [h]
  simp only [ne_eq, not_true_eq_false, if_false, ite_not]
  cases hc : isChargeSuccess body <;> simp [hc]

/-- Witness for `c8_webhook_always_200` with both collaborators failing. -/
theorem c8_webhook_always_200_witness :
    (webhookPaystack (fun l => l) bodyExample
        (webhookHmacInput bodyExample) [] ⟨false, false⟩).1 = 200 :=
  c8_webhook_always_200 (fun l => l) bodyExample
    (webhookHmacInput bodyExample) [] ⟨false, false⟩ rfl

/-! ### Claim C5: amount normalization -/

/-- Claim C5 fails on the code: the verifier computes
`Math.round(Number(data.amount) || 0) / 100`, which rounds the
minor-unit amount first and then divides, so minor-unit amount 1 yields
1/100 = 0.01, not the 0 the claim states (490000 does yield 4900). -/
theorem c5_counterexample : koboToNaira 1 = 1 / 100 ∧ koboToNaira 1 ≠ 0 := by
  constructor <;> norm_num [koboToNaira, jsRound]

/-- Claim C5 amended: amount normalization rounds the minor-unit amount to
the nearest whole minor unit and then divides by 100 (so it is the
identity-then-divide on integer minor amounts and can produce fractional
major amounts); 490000 yields 4900, and 1 yields 1/100, not 0. -/
theorem c5_amended_normalization :
    koboToNaira 490000 = 4900 ∧ koboToNaira 1 = 1 / 100 ∧
      ∀ m : ℤ, koboToNaira (m : ℚ) = (m : ℚ) / 100 := by
  refine ⟨by norm_num [koboToNaira, jsRound], by norm_num [koboToNaira, jsRound], ?_⟩
  intro m
  have h : jsRound (m : ℚ) = m := by
    simp only [jsRound, Int.floor_int_add]
    norm_num
  rw [koboToNaira, h]

/-! ### Claim C10: initialization followed by normalization -/

/-- Claim C10 holds: for a whole major-unit amount `a`, initialization
sends `a * 100` minor units (src/server.js line 216) and the verifier's
normalization `Math.round(·)/100` maps it back to exactly `a`. -/
theorem c10_init_verify_roundtrip (a : ℕ) :
    koboToNaira (paymentInitMinorAmount (a : ℚ)) = (a : ℚ) := by
  have h1 : paymentInitMinorAmount (a : ℚ) = ((a * 100 : ℤ) : ℚ) := by
    simp only [paymentInitMinorAmount]
    push_cast
    ring
  have h2 : jsRound ((a * 100 : ℤ) : ℚ) = (a * 100 : ℤ) := by
    simp only [jsRound, Int.floor_int_add]
    norm_num
  rw [h1, koboToNaira, h2]
  push_cast
  field_simp

/-! ### Claim C7: display-name split -/

/-- Claim C7 fails on the code: in the fulfillment split (src/server.js
lines 916-919) the fallback last name when there is no remainder is the
literal `'Customer'`, not the first token, so `"Madonna"` yields
first `"Madonna"`, last `"Customer"`, not last `"Madonna"`. -/
theorem c7_counterexample :
    fetchSplitName (some "Madonna".toList) ≠
      ("Madonna".toList, "Madonna".toList) := by
  decide

/-- Claim C7 amended: the split takes the first space-delimited token as
the first name and the remainder as the last name, but when there is no
remainder the fallback last name is the literal `"Customer"` in the
fulfillment split (src/server.js lines 916-919), and the empty string in
the Sender.net list-subscription split (src/unnamed/part_000 lines
326-327) — never the first token. -/
theorem c7_amended_split :
    fetchSplitName (some "Jane Doe".toList) = ("Jane".toList, "Doe".toList) ∧
    fetchSplitName (some "Madonna".toList) = ("Madonna".toList, "Customer".toList) ∧
    senderSplitName (some "Jane Doe".toList) = ("Jane".toList, "Doe".toList) ∧
    senderSplitName (some "Madonna".toList) = ("Madonna".toList, []) := by
  refine ⟨by decide, by decide, by decide, by decide⟩

/-! ### Claim C9: escaping of interpolated values -/

lemma replaceChar_append (c : Char) (r x y : List Char) :
    replaceChar c r (x ++ y) = replaceChar c r x ++ replaceChar c r y := by
  induction x with
  | nil => simp [replaceChar]
  | cons a t ih => simp [replaceChar, ih]

lemma esc_append (x y : List Char) : esc (x ++ y) = esc x ++ esc y := by
  simp [esc, replaceChar_append]

lemma esc_single (a : Char) : esc [a] = escChar a := by
  by_cases h1 : a = '&'
  · subst h1; decide
  by_cases h2 : a = '<'
  · subst h2; decide
  by_cases h3 : a = '>'
  · subst h3; decide
  simp [esc, escChar, replaceChar, h1, h2, h3]

lemma esc_cons (a : Char) (s : List Char) :
    esc (a :: s) = escChar a ++ esc s := by
  have h : a :: s = [a] ++ s := rfl
  rw [h, esc_append, esc_single]

lemma count_escChar_lt (a : Char) : (escChar a).count '<' = 0 := by
  by_cases h1 : a = '&'
  · subst h1; decide
  by_cases h2 : a = '<'
  · subst h2; decide
  by_cases h3 : a = '>'
  · subst h3; decide
  simp [escChar, h1, h2, h3, List.count_cons, Ne.symm h2]

lemma count_escChar_gt (a : Char) : (escChar a).count '>' = 0 := by
  by_cases h1 : a = '&'
  · subst h1; decide
  by_cases h2 : a = '<'
  · subst h2; decide
  by_cases h3 : a = '>'
  · subst h3; decide
  simp [escChar, h1, h2, h3, List.count_cons, Ne.symm h3]

lemma count_esc_lt (s : List Char) : (esc s).count '<' = 0 := by
  induction s with
  | nil => decide
  | cons a t ih => rw [esc_cons, List.count_append, ih, count_escChar_lt]

lemma count_esc_gt (s : List Char) : (esc s).count '>' = 0 := by
  induction s with
  | nil => decide
  | cons a t ih => rw [esc_cons, List.count_append, ih, count_escChar_gt]

lemma leadsWith_append (p x y : List Char) (h : leadsWith p x = true) :
    leadsWith p (x ++ y) = true := by
  induction p generalizing x with
  | nil => simp [leadsWith]
  | cons c ps ih =>
    cases x with
    | nil => simp [leadsWith] at h
    | cons a t =>
      simp only [leadsWith, Bool.and_eq_true, decide_eq_true_eq] at h
      simp only [List.cons_append, leadsWith, Bool.and_eq_true, decide_eq_true_eq]
      exact ⟨h.1, ih t h.2⟩

lemma ampOkB_append (x y : List Char) (hx : ampOkB x = true)
    (hy : ampOkB y = true) : ampOkB (x ++ y) = true := by
  induction x with
  | nil => simpa using hy
  | cons a t ih =>
    by_cases h : a = '&'
    · simp only [h, ampOkB, if_true, Bool.and_eq_true, Bool.or_eq_true] at hx
      obtain ⟨h1, h2⟩ := hx
      simp only [List.cons_append, ampOkB, h, if_true, Bool.and_eq_true,
        Bool.or_eq_true]
      refine ⟨?_, ih h2⟩
      rcases h1 with (h1 | h1) | h1
      · exact Or.inl (Or.inl (leadsWith_append _ _ _ h1))
      · exact Or.inl (Or.inr (leadsWith_append _ _ _ h1))
      · exact Or.inr (leadsWith_append _ _ _ h1)
    · simp only [ampOkB, h, if_false, Bool.true_and] at hx
      simp only [List.cons_append, ampOkB, h, if_false, Bool.true_and]
      exact ih hx

lemma ampOkB_cons_ne (a : Char) (h : a ≠ '&') (l : List Char)
    (hl : ampOkB l = true) : ampOkB (a :: l) = true := by
  simp [ampOkB, h, hl]

lemma ampOkB_escChar (a : Char) : ampOkB (escChar a) = true := by
  by_cases h1 : a = '&'
  · subst h1; decide
  by_cases h2 : a = '<'
  · subst h2; decide
  by_cases h3 : a = '>'
  · subst h3; decide
  simp [escChar, ampOkB, h1, h2, h3]

lemma ampOkB_esc (s : List Char) : ampOkB (esc s) = true := by
  induction s with
  | nil => decide
  | cons a t ih => rw [esc_cons]; exact ampOkB_append _ _ (ampOkB_escChar a) ih

lemma count_lt_cons_nl (l : List Char) :
    ('\n' :: l).count '<' = l.count '<' :=
  List.count_cons_of_ne (by decide) l

lemma count_gt_cons_nl (l : List Char) :
    ('\n' :: l).count '>' = l.count '>' :=
  List.count_cons_of_ne (by decide) l

lemma ampOkB_joinWith (lines : List (List Char))
    (h : ∀ l ∈ lines, ampOkB l = true) :
    ampOkB (joinWith '\n' lines) = true := by
  induction lines with
  | nil => decide
  | cons l ls ih =>
    cases ls with
    | nil => simpa [joinWith] using h l (by simp)
    | cons m ms =>
      refine ampOkB_append _ _ (h l (by simp))
        (ampOkB_cons_ne _ (by decide) _ (ih ?_))
      intro x hx
      exact h x (by simp [hx])

/-- Claim C9 holds: in the chat-alert message every customer-supplied
value is interpolated through `esc`, so the rendered message contains
exactly as many raw `<` and `>` characters as the fixed template (the
values contribute none, whatever they contain), and every `&` in the
message begins one of the entities `&amp;`, `&lt;`, `&gt;` — customer
data never appears as a raw markup character. -/
theorem c9_interpolations_escaped (fullName email currency amountText
    reference country ipAddress gclid now : List Char) :
    ((buildTelegramMessage fullName email currency amountText reference
        country ipAddress gclid now).count '<'
      = (buildTelegramMessage [] [] [] [] [] [] [] [] []).count '<') ∧
    ((buildTelegramMessage fullName email currency amountText reference
        country ipAddress gclid now).count '>'
      = (buildTelegramMessage [] [] [] [] [] [] [] [] []).count '>') ∧
    ampOkB (buildTelegramMessage fullName email currency amountText
        reference country ipAddress gclid now) = true := by
  refine ⟨?_, ?_, ?_⟩
  · simp only [buildTelegramMessage, joinWith, List.count_append,
      count_lt_cons_nl, count_esc_lt, Nat.add_zero, Nat.zero_add]
  · simp only [buildTelegramMessage, joinWith, List.count_append,
      count_gt_cons_nl, count_esc_gt, Nat.add_zero, Nat.zero_add]
  · apply ampOkB_joinWith
    intro l hl
    simp only [List.mem_cons, List.not_mem_nil, or_false] at hl
    rcases hl with rfl | rfl | rfl | rfl | rfl | rfl | rfl | rfl | rfl | rfl |
      rfl | rfl | rfl | rfl | rfl | rfl | rfl | rfl
    all_goals
      repeat
        first
        | exact ampOkB_esc _
        | apply ampOkB_append
        | decide

end Canvacrash
